import Mathlib

/-!
Verification of the auto-futures trading agent against its specification.

The Python sources are shallowly embedded: machine floats become exact
rationals, dictionaries become structures with optional fields, and the
effectful parts of the trading cycle (exchange responses, fill results)
are supplied as explicit oracle inputs.  Python truthiness on strings
and numbers is modelled explicitly where the source relies on it.
-/

set_option maxHeartbeats 1000000

namespace AutoFutures

/-! ## Python-semantics helpers -/

/-- Python truthiness for optional strings: None and the empty string are falsy. -/
def strTruthy : Option String → Bool
  | some s => s ≠ ""
  | none => false

/-- Python `a or b` on optional strings. -/
def pyStrOr (a b : Option String) : Option String :=
  if strTruthy a then a else b

/-- Python truthiness for optional numbers: None and 0.0 are falsy. -/
def ratTruthy : Option ℚ → Bool
  | some v => v ≠ 0
  | none => false

/-- Python `a or b` on optional numbers. -/
def pyRatOr (a b : Option ℚ) : Option ℚ :=
  if ratTruthy a then a else b

/-- Python truthiness for optional integers (timestamps). -/
def intTruthy : Option Int → Bool
  | some v => v ≠ 0
  | none => false

/-- Python `a or b` on optional integers. -/
def pyIntOr (a b : Option Int) : Option Int :=
  if intTruthy a then a else b

/-- Python `str.upper()` for the ASCII strings exchanged with the
exchange, on the character-list model of strings. -/
def pyUpper (s : String) : String := ⟨s.data.map Char.toUpper⟩

/-- Python `str.lower()` for ASCII strings. -/
def pyLower (s : String) : String := ⟨s.data.map Char.toLower⟩

/-- Keep the last `n` elements of a list. -/
def lastN (n : Nat) (xs : List α) : List α :=
  xs.drop (xs.length - n)

/-- `collections.deque(maxlen := m)` append: add on the right, evict on the left. -/
def dequeAppend (maxlen : Nat) (xs : List α) (x : α) : List α :=
  lastN maxlen (xs ++ [x])

/-! ## order_store.py -/

/-- `TERMINAL_STATUSES` from order_store.py. -/
def TERMINAL_STATUSES : List String := ["FILLED", "CANCELED", "REJECTED", "EXPIRED"]

/-- The `OrderTracker` dataclass.  `event_set` models the one-shot
`threading.Event` completion signal. -/
structure OrderTracker where
  symbol : Option String
  order_id : Int
  side : Option String := none
  position_side : Option String := none
  status : String := "NEW"
  order_type : Option String := none
  reduce_only : Option Bool := none
  price : Option ℚ := none
  stop_price : Option ℚ := none
  quantity : Option ℚ := none
  executed_qty : ℚ := 0
  last_fill_qty : ℚ := 0
  avg_price : Option ℚ := none
  last_fill_price : Option ℚ := none
  update_time : Option Int := none
  event_set : Bool := false
deriving Repr, DecidableEq

/-- `OrderTracker.is_terminal`. -/
def OrderTracker.is_terminal (t : OrderTracker) : Bool :=
  t.status ∈ TERMINAL_STATUSES

/-- The method names defined on the `OrderTracker` dataclass in
order_store.py (lines 48-67): `is_terminal`, `set_terminal`, `wait`,
`snapshot`.  Used to model Python attribute lookup. -/
def OrderTracker.methodNames : List String :=
  ["is_terminal", "set_terminal", "wait", "snapshot"]

/-- The `OrderStore`: an insertion-ordered map from order id to tracker. -/
structure OrderStore where
  orders : List (Int × OrderTracker) := []
deriving Repr, DecidableEq

/-- Dictionary lookup in the id-to-tracker map. -/
def lookupOrder (st : OrderStore) (order_id : Int) : Option OrderTracker :=
  (st.orders.find? (fun e => e.1 = order_id)).map (·.2)

/-- `OrderStore.register`: create the tracker if absent, otherwise return
the existing one, ignoring the arguments of the later call. -/
def OrderStore.register (st : OrderStore) (symbol : String) (order_id : Int)
    (side position_side : Option String)
    (order_type : Option String := none) (reduce_only : Option Bool := none)
    (price stop_price quantity : Option ℚ := none) :
    OrderTracker × OrderStore :=
  match lookupOrder st order_id with
  | some ot => (ot, st)
  | none =>
      let ot : OrderTracker :=
        { symbol := some symbol, order_id := order_id, side := side
          position_side := position_side, order_type := order_type
          reduce_only := reduce_only, price := price
          stop_price := stop_price, quantity := quantity }
      (ot, { orders := st.orders ++ [(order_id, ot)] })

/-- The `o` object of a Binance ORDER_TRADE_UPDATE payload.  Numeric fields
are already passed through `safe_float`. -/
structure OrderEventO where
  s : Option String := none
  i : Option Int := none
  S : Option String := none
  ps : Option String := none
  X : Option String := none
  ot : Option String := none
  o : Option String := none
  R : Option Bool := none
  p : Option ℚ := none
  sp : Option ℚ := none
  q : Option ℚ := none
  z : Option ℚ := none
  l : Option ℚ := none
  ap : Option ℚ := none
  L : Option ℚ := none
deriving Repr, DecidableEq

/-- An ORDER_TRADE_UPDATE style payload. -/
structure UserEventPayload where
  e : Option String := none
  o : OrderEventO := {}
  E : Option Int := none
  T : Option Int := none
deriving Repr, DecidableEq

/-- `OrderStore._merge_o_fields`: merge event fields into a tracker and
fire the completion signal on a terminal status. -/
def mergeOFields (ot : OrderTracker) (o : OrderEventO) (E T : Option Int) :
    OrderTracker :=
  let sym := pyStrOr o.s ot.symbol
  let symbol := if strTruthy sym then sym else ot.symbol
  let st := pyUpper ((pyStrOr o.X (some ot.status)).getD "")
  let t : OrderTracker :=
    { ot with
      symbol := symbol
      status := st
      side := pyStrOr o.S ot.side
      position_side := pyStrOr o.ps ot.position_side
      order_type := pyStrOr o.ot (pyStrOr o.o ot.order_type)
      price := if o.p.isSome then o.p else ot.price
      stop_price := if o.sp.isSome then o.sp else ot.stop_price
      quantity := if o.q.isSome then o.q else ot.quantity
      executed_qty := o.z.getD ot.executed_qty
      last_fill_qty := o.l.getD ot.last_fill_qty
      last_fill_price := if o.L.isSome then o.L else ot.last_fill_price
      avg_price := if o.ap.isSome then o.ap else ot.avg_price
      reduce_only := if o.R.isSome then o.R else ot.reduce_only
      update_time := pyIntOr E (pyIntOr T ot.update_time) }
  if t.is_terminal then { t with event_set := true } else t

/-- Replace the tracker stored at `order_id`. -/
def storeSet (st : OrderStore) (order_id : Int) (ot : OrderTracker) : OrderStore :=
  { orders := st.orders.map (fun e => if e.1 = order_id then (order_id, ot) else e) }

/-- `OrderStore.update_from_user_event` restricted to its live branch:
payloads whose event type upper-cases to ORDER_TRADE_UPDATE.  (The
misspelled EXECUTUIONREPORT branch is unreachable for real events.) -/
def OrderStore.update_from_user_event (st : OrderStore) (payload : UserEventPayload) :
    OrderStore :=
  let etype := pyUpper ((pyStrOr payload.e none).getD "")
  if etype = "ORDER_TRADE_UPDATE" then
    match payload.o.i with
    | none => st
    | some order_id =>
        match lookupOrder st order_id with
        | some ot =>
            storeSet st order_id (mergeOFields ot payload.o payload.E payload.T)
        | none =>
            let ot : OrderTracker := { symbol := payload.o.s, order_id := order_id }
            let st1 : OrderStore := { orders := st.orders ++ [(order_id, ot)] }
            storeSet st1 order_id (mergeOFields ot payload.o payload.E payload.T)
  else st

/-- A Python runtime error raised by the embedded code. -/
inductive PyError
  | attributeError (msg : String)
deriving Repr, DecidableEq

/-- The outcome of a call that may either return a value or raise. -/
inductive WaitOutcome
  | returns (snapshot : Option OrderTracker)
  | raises (err : PyError)
deriving Repr, DecidableEq

/-- `OrderStore.wait_until_terminal`.  `appearsDuringPoll` is the tracker
found by the brief registration poll when the id is absent at call time;
`eventFires` tells whether the completion signal is set before the
timeout.  When a tracker is obtained, the source calls the attribute
`wait_until_terminal` on it (order_store.py line 196), which is resolved
through the method table of the dataclass. -/
def OrderStore.wait_until_terminal (st : OrderStore) (order_id : Int)
    (appearsDuringPoll : Option OrderTracker) (eventFires : Bool) :
    WaitOutcome :=
  let found :=
    match lookupOrder st order_id with
    | some ot => some ot
    | none => appearsDuringPoll
  match found with
  | none => .returns none
  | some ot =>
      if "wait_until_terminal" ∈ OrderTracker.methodNames then
        .returns (if eventFires then some ot else none)
      else
        .raises (.attributeError "OrderTracker object has no attribute wait_until_terminal")

/-! ## ws_cache.py -/

/-- The `WsCache` dataclass (the fields touched by the mark and kline
streams). -/
structure WsCache where
  symbol : String
  mark_price : Option ℚ := none
  last_mark_ts : ℚ := 0
  last_kline_close_c : Option ℚ := none
deriving Repr, DecidableEq

/-- `WsCache.set_mark`: store the price and the event time (milliseconds
converted to seconds) unconditionally. -/
def WsCache.set_mark (c : WsCache) (p : ℚ) (ts_ms : Int) : WsCache :=
  { c with mark_price := some p, last_mark_ts := (ts_ms : ℚ) / 1000 }

/-! ## service_runner.py: VolatilityDetector -/

/-- The detector state.  `mp_hist` is the `(ts, price)` deque with
`maxlen = 4096`; `vol_hist` is the volume deque with
`maxlen = max 5 vol_lookback`. -/
structure VolatilityDetector where
  mp_window_sec : ℚ := 10
  mp_delta_pct : ℚ := 35/100
  kline_range_pct : ℚ := 6/10
  vol_lookback : Nat := 20
  vol_mult : ℚ := 3
  use_quote_volume : Bool := true
  mp_hist : List (ℚ × ℚ) := []
  vol_hist : List ℚ := []
deriving Repr, DecidableEq

/-- The event timestamp in seconds: event time E in milliseconds when
truthy, wall-clock fallback otherwise, divided by 1000. -/
def tsOf (E : Option Int) (now_ms : Int) : ℚ :=
  ((pyIntOr E (some now_ms)).getD 0 : Int) / 1000

/-- `VolatilityDetector.on_mark`.  `E` is the event time in milliseconds
(`now_ms` is the wall-clock fallback used when `E` is falsy); `p` is the
parsed mark price, `none` when missing. -/
def VolatilityDetector.on_mark (d : VolatilityDetector) (E : Option Int)
    (p? : Option ℚ) (now_ms : Int) : Bool × VolatilityDetector :=
  match p? with
  | none => (false, d)
  | some p =>
      let ts : ℚ := tsOf E now_ms
      let hist1 := dequeAppend 4096 d.mp_hist (ts, p)
      let win_start := ts - d.mp_window_sec
      let hist2 := hist1.dropWhile (fun e => e.1 < win_start)
      let d1 := { d with mp_hist := hist2 }
      if hist2.length < 2 then (false, d1)
      else
        match hist2.head? with
        | none => (false, d1)
        | some e0 =>
            let p0 := e0.2
            if p0 = 0 then (false, d1)
            else (decide (|p / p0 - 1| * 100 ≥ d.mp_delta_pct), d1)

/-- The `k` object of a 1m kline event (numeric fields already through
`safe_float`). -/
structure KlineK where
  x : Bool := false
  h : Option ℚ := none
  l : Option ℚ := none
  c : Option ℚ := none
  v : Option ℚ := none
  q : Option ℚ := none
deriving Repr, DecidableEq

/-- The intermediate values of one `on_kline` evaluation (the `trig_range`,
`trig_vol`, `vol` and `avg` locals of the source). -/
structure KlineEval where
  trig_range : Bool := false
  trig_vol : Bool := false
  vol : Option ℚ := none
  avg : Option ℚ := none
deriving Repr, DecidableEq

/-- `VolatilityDetector.on_kline`: verdict, updated state, and the
intermediate values of the evaluation. -/
def VolatilityDetector.on_kline (d : VolatilityDetector) (k : KlineK) :
    Bool × VolatilityDetector × KlineEval :=
  if !k.x then (false, d, {})
  else if !(ratTruthy k.c && ratTruthy k.h && ratTruthy k.l) then (false, d, {})
  else
    let h := k.h.getD 0
    let l := k.l.getD 0
    let c := k.c.getD 0
    let range_pct := ((h - l) / c) * 100
    let trig_range := decide (range_pct ≥ d.kline_range_pct)
    let vol? := if d.use_quote_volume && k.q.isSome then k.q else k.v
    match vol? with
    | none => (trig_range, d, { trig_range := trig_range, vol := none, avg := none })
    | some vol =>
        let avg? : Option ℚ :=
          if d.vol_hist.isEmpty then none
          else some (d.vol_hist.sum / (d.vol_hist.length : ℚ))
        let trig_vol :=
          match avg? with
          | some avg => decide (avg > 0) && decide (vol ≥ d.vol_mult * avg)
          | none => false
        let d1 := { d with vol_hist := dequeAppend (max 5 d.vol_lookback) d.vol_hist vol }
        (trig_range || trig_vol, d1,
          { trig_range := trig_range, trig_vol := trig_vol
            vol := some vol, avg := avg? })

/-- Run `on_kline` over a sequence of events, keeping only the state. -/
def VolatilityDetector.feedKlines (d : VolatilityDetector) (ks : List KlineK) :
    VolatilityDetector :=
  ks.foldl (fun s k => (s.on_kline k).2.1) d

/-- Modelled from the claim sentence of the spec: the volume sub-rule with
a rolling window holding only the last `lookback` volumes, appended after
evaluation.  `prevVols` is the full list of volumes of the earlier closed
candles, `vol` the volume of the candle under evaluation. -/
def volRuleClaim (lookback : Nat) (mult : ℚ) (prevVols : List ℚ) (vol : ℚ) : Bool :=
  let hist := lastN lookback prevVols
  if hist.isEmpty then false
  else
    let avg := hist.sum / (hist.length : ℚ)
    decide (avg > 0) && decide (vol ≥ mult * avg)

/-- Modelled from the claim sentence of the spec: the mark-price rule with
stale entries dropped from the history first, the new sample then added
to the window. -/
def markRuleClaim (hist : List (ℚ × ℚ)) (window threshold : ℚ) (ts p : ℚ) : Bool :=
  let win := (hist.dropWhile (fun e => e.1 < ts - window)) ++ [(ts, p)]
  match win.head? with
  | none => false
  | some e0 =>
      decide (2 ≤ win.length) && decide (e0.2 ≠ 0) &&
        decide (|p / e0.2 - 1| * 100 ≥ threshold)

/-! ## common_utils.py: snapping

`snap_price` / `snap_qty` compute `round(round(x / step) * step, decimals)`
with Python bankers rounding; on exact rationals the outer decimal
rounding is the identity for decimal tick/step values, so the embedding
keeps the inner snap only.  A falsy step (absent or zero) returns the
input unchanged. -/

/-- Python `round` to the nearest integer, halves to even. -/
def pyRound (x : ℚ) : ℤ :=
  let f := ⌊x⌋
  let frac := x - f
  if frac < 1/2 then f
  else if 1/2 < frac then f + 1
  else if f % 2 = 0 then f else f + 1

/-- Snap a value to a multiple of a (nonzero) step. -/
def snapToStep (x s : ℚ) : ℚ := (pyRound (x / s) : ℚ) * s

/-- `snap_qty`. -/
def snap_qty (qty : ℚ) (step : Option ℚ) : ℚ :=
  match step with
  | some s => if s = 0 then qty else snapToStep qty s
  | none => qty

/-- `round_price_qty` from auto_future_trader.py: snap an optional price to
the tick and a quantity to the step. -/
def round_price_qty (price : Option ℚ) (qty : ℚ) (tick step : Option ℚ) :
    Option ℚ × ℚ :=
  let p := match price, tick with
    | some pv, some t => if t = 0 then some pv else some (snapToStep pv t)
    | _, _ => price
  (p, snap_qty qty step)

/-! ## auto_future_trader.py: the trading cycle

`run_once` is embedded as a pure function.  External effects are oracle
inputs carried by `CycleEnv`: the positions returned by the account read,
the scripted exchange response to each order submission, and the scripted
fill-confirmation result of each wait (WebSocket wait with REST fallback
combined).  The trace records every order parameter dictionary passed to
`place_order`, the order ids registered with the Order Store, the order
ids waited on, and the number of protective-order cleanup passes. -/

/-- An open position as produced by `fetch_account_and_positions`
(`side` is `long` or `short`, `qty` is the absolute quantity). -/
structure PyPosition where
  symbol : String
  side : String
  qty : ℚ
  entry_price : Option ℚ := none
deriving Repr, DecidableEq

/-- One take-profit level of the advice. -/
structure TakeProfit where
  price : Option ℚ := none
  size_pct : Option ℚ := none
deriving Repr, DecidableEq

/-- The `position` object of the advice (fields already through
`safe_float`). -/
structure AdvicePosition where
  contracts : Option ℚ := none
  quote_value_usdt : Option ℚ := none
  leverage : Option ℚ := none
  entry_order_type : Option String := none
  entry_price : Option ℚ := none
  sl_price : Option ℚ := none
  sl_trigger_on : Option String := none
  take_profits : List TakeProfit := []
  trail_activate_price : Option ℚ := none
  trail_callback_pct : Option ℚ := none
deriving Repr, DecidableEq

/-- The advisor decision envelope. -/
structure Advice where
  decision : Option String := none
  confidence : Option ℚ := none
  position : AdvicePosition := {}
deriving Repr, DecidableEq

/-- The parameter dictionary passed to `place_order`.  `type` carries the
exact string value submitted: the binance.enums constants used by the
source have values `MARKET`, `LIMIT` and `STOP_MARKET`. -/
structure OrderParams where
  symbol : String
  side : String
  type : String
  quantity : Option ℚ := none
  price : Option ℚ := none
  stopPrice : Option ℚ := none
  reduceOnly : Bool := false
  positionSide : Option String := none
  workingType : Option String := none
  timeInForce : Option String := none
  callbackRate : Option ℚ := none
deriving Repr, DecidableEq

/-- The outcome of one `place_order` call: a dry-run echo, an exchange
response carrying an order id, or a caught submission error. -/
inductive OrderResp
  | dryRun
  | ok (orderId : Int)
  | err (msg : String)
deriving Repr, DecidableEq

/-- A fill confirmation as returned by `wait_fill_with_ws` or
`poll_fill_backup`. -/
structure FillResult where
  status : String
  executed_qty : Option ℚ := none
  avg_price : Option ℚ := none
deriving Repr, DecidableEq

/-- The oracle environment of one cycle invocation. -/
structure CycleEnv where
  symbol : String := "ETHUSDT"
  dryRun : Bool := false
  hedge : Bool := false
  tick : Option ℚ := none
  step : Option ℚ := none
  hasCache : Bool := true
  cacheMark : Option ℚ := none
  cacheKlineClose : Option ℚ := none
  lastMarkTs : ℚ := 0
  marketMark : Option ℚ := none
  marketLast : Option ℚ := none
  advice : Advice := {}
  confThresholdRaw : Option ℚ := none
  positions : List PyPosition := []
  responses : List OrderResp := []
  fills : List (Option FillResult) := []
deriving Repr, DecidableEq

/-- The structured terminal state published by one cycle. -/
inductive CycleStatus
  | skipped (reason : String)
  | invalid (reason : String)
  | flat
  | completed
deriving Repr, DecidableEq

/-- The observable trace of one cycle invocation. -/
structure CycleTrace where
  status : CycleStatus
  orders : List OrderParams := []
  registered : List Int := []
  waited : List Int := []
  cleanups : Nat := 0
deriving Repr, DecidableEq

/-- Internal execution state threading the response and fill scripts. -/
structure Exec where
  resps : List OrderResp
  fills : List (Option FillResult)
  orders : List OrderParams := []
  registered : List Int := []
  waited : List Int := []
  cleanups : Nat := 0
deriving Repr, DecidableEq

/-- `place_order`: in dry-run mode echo the parameters, otherwise consume
the next scripted exchange response. -/
def Exec.place (ex : Exec) (dry : Bool) (p : OrderParams) : OrderResp × Exec :=
  let ex1 := { ex with orders := ex.orders ++ [p] }
  if dry then (.dryRun, ex1)
  else
    match ex1.resps with
    | [] => (.err "no_response", ex1)
    | r :: rs => (r, { ex1 with resps := rs })

/-- `order_store.register` as seen from the cycle. -/
def Exec.registerId (ex : Exec) (oid : Int) : Exec :=
  { ex with registered := ex.registered ++ [oid] }

/-- Block on a fill confirmation, consuming the next scripted result. -/
def Exec.waitFill (ex : Exec) (oid : Int) : Option FillResult × Exec :=
  let ex1 := { ex with waited := ex.waited ++ [oid] }
  match ex1.fills with
  | [] => (none, ex1)
  | f :: fs => (f, { ex1 with fills := fs })

/-- One `cancel_stale_protection_orders` pass. -/
def Exec.cleanup (ex : Exec) : Exec := { ex with cleanups := ex.cleanups + 1 }

/-- `pos_side_map` from run_once. -/
def posSideMap (s : String) : Option String :=
  if s = "long" then some "LONG" else if s = "short" then some "SHORT" else none

/-- Clamp to the unit interval (`max(0.0, min(1.0, x))`). -/
def clamp01 (x : ℚ) : ℚ := max 0 (min 1 x)

/-- The confidence threshold: AI_CONF_THRESHOLD parsed (default and
parse-failure fallback 0.5), clamped to [0, 1]. -/
def aiConfThreshold (env : CycleEnv) : ℚ :=
  clamp01 (env.confThresholdRaw.getD (1/2))

/-- The confidence gate condition of run_once (line 636). -/
def gateLowConfidence (env : CycleEnv) : Bool :=
  match env.advice.confidence with
  | some c => decide (0 < c) && decide (c < aiConfThreshold env)
  | none => false

/-- `extract_existing_position`: split open quantity into same-side and
opposite-side totals relative to the target direction. -/
def extract_existing_position (positions : List PyPosition)
    (symbol target_side : String) : ℚ × ℚ :=
  positions.foldl
    (fun acc p =>
      if p.symbol ≠ symbol then acc
      else if p.side = target_side then (acc.1 + p.qty, acc.2)
      else (acc.1, acc.2 + p.qty))
    (0, 0)

/-- Quantity resolution of run_once step 3: contracts, else quote value
divided by the resolved last price (mark price preferred), else zero. -/
def rawQty (env : CycleEnv) : ℚ :=
  let contracts := (env.advice.position.contracts).getD 0
  let lp := pyRatOr env.marketMark env.marketLast
  let quoteV := (env.advice.position.quote_value_usdt).getD 0
  let alt : ℚ := if ratTruthy lp then quoteV / lp.getD 0 else 0
  if contracts ≠ 0 then contracts else alt

/-- The normalized entry order type: MARKET unless the advice asks for
something else, which is treated as LIMIT. -/
def entryTypeOf (env : CycleEnv) : String :=
  if pyUpper ((env.advice.position.entry_order_type).getD "market") = "MARKET"
  then "MARKET" else "LIMIT"

/-- The reduce-only market order closing one open position in the flat
branch: opposite side, snapped quantity, position side stamped in hedge
mode. -/
def closeOrderFor (env : CycleEnv) (p : PyPosition) : OrderParams :=
  { symbol := env.symbol
    side := if p.side = "long" then "SELL" else "BUY"
    type := "MARKET"
    quantity := some (snap_qty p.qty env.step), reduceOnly := true
    positionSide := if env.hedge then posSideMap p.side else none }

/-- One iteration of the flat-branch loop: close a positive open position
on the symbol with a reduce-only market order. -/
def flatCloseStep (env : CycleEnv) (ex : Exec) (p : PyPosition) : Exec :=
  if p.symbol ≠ env.symbol ∨ p.qty ≤ 0 then ex
  else
    let (resp, ex1) := ex.place env.dryRun (closeOrderFor env p)
    match resp with
    | .dryRun => ex1
    | .ok oid => ((ex1.registerId oid).waitFill oid).2
    | .err _ => ex1

/-- One take-profit placement (skips levels with falsy price or
non-positive size percentage). -/
def tpStep (env : CycleEnv) (target_side : Option String) (filled_qty : ℚ)
    (ex : Exec) (tp : TakeProfit) : Exec :=
  if !ratTruthy tp.price ∨ (tp.size_pct).getD 0 ≤ 0 then ex
  else
    let tq := filled_qty * ((tp.size_pct).getD 0 / 100)
    let (tpp, tqty) := round_price_qty tp.price tq env.tick env.step
    let params : OrderParams :=
      { symbol := env.symbol
        side := if target_side = some "long" then "SELL" else "BUY"
        type := "LIMIT", quantity := some tqty, price := tpp
        timeInForce := some "GTC", reduceOnly := true
        positionSide := if env.hedge then posSideMap ((target_side).getD "") else none }
    let (resp, ex1) := ex.place env.dryRun params
    match resp with
    | .ok oid => ex1.registerId oid
    | _ => ex1

/-- The long/short tail of run_once (reverse close, entry, fill
confirmation, protective orders), producing the execution state. -/
def longBranchExec (env : CycleEnv) (target_side : Option String)
    (entry_price : Option ℚ) (qty : ℚ) (ex0 : Exec) : Exec :=
          let opp_qty := (extract_existing_position env.positions env.symbol
            ((target_side).getD "")).2
          let ex1 :=
            if opp_qty > 0 then
              let reduce_side := if target_side = some "short" then "BUY" else "SELL"
              let closeSide := if target_side = some "long" then "short" else "long"
              let params : OrderParams :=
                { symbol := env.symbol, side := reduce_side, type := "MARKET"
                  quantity := some (snap_qty opp_qty env.step), reduceOnly := true
                  positionSide := if env.hedge then posSideMap closeSide else none }
              let (resp, exA) := ex0.place env.dryRun params
              match resp with
              | .dryRun => exA
              | .ok oid => ((((exA.registerId oid).waitFill oid).2).cleanup)
              | .err _ => exA
            else ex0
          let etype := entryTypeOf env
          let entryParams : OrderParams :=
            { symbol := env.symbol
              side := if target_side = some "long" then "BUY" else "SELL"
              type := etype, quantity := some qty
              price := if etype = "LIMIT" then entry_price else none
              timeInForce := if etype = "LIMIT" then some "GTC" else none
              positionSide := if env.hedge then posSideMap ((target_side).getD "") else none }
          let (resp, ex2) := ex1.place env.dryRun entryParams
          let (filled_qty, ex3) :=
            match resp with
            | .dryRun => (qty, ex2)
            | .ok oid =>
                let (res, exC) := (ex2.registerId oid).waitFill oid
                let fq : ℚ :=
                  match res with
                  | some f =>
                      if f.status ∈ TERMINAL_STATUSES then
                        if (f.executed_qty).getD 0 ≠ 0 then (f.executed_qty).getD 0 else qty
                      else 0
                  | none => 0
                (fq, exC.cleanup)
            | .err _ => (0, ex2)
          let exFinal :=
            if 0 < filled_qty then
              let trigger_on :=
                pyLower ((pyStrOr env.advice.position.sl_trigger_on (some "mark")).getD "mark")
              let working_type :=
                if trigger_on = "mark" then "MARK_PRICE" else "CONTRACT_PRICE"
              let exA :=
                if ratTruthy env.advice.position.sl_price then
                  let slp := (round_price_qty env.advice.position.sl_price filled_qty
                    env.tick env.step).1
                  let params : OrderParams :=
                    { symbol := env.symbol
                      side := if target_side = some "long" then "SELL" else "BUY"
                      type := "STOP_MARKET", quantity := some filled_qty
                      stopPrice := slp, reduceOnly := true
                      workingType := some working_type
                      positionSide := if env.hedge then posSideMap ((target_side).getD "") else none }
                  let (respA, exB) := ex3.place env.dryRun params
                  match respA with
                  | .ok oid => exB.registerId oid
                  | _ => exB
                else ex3
              let exB := env.advice.position.take_profits.foldl
                (tpStep env target_side filled_qty) exA
              if ratTruthy env.advice.position.trail_activate_price ∧
                  ratTruthy env.advice.position.trail_callback_pct then
                let act := (round_price_qty env.advice.position.trail_activate_price
                  filled_qty env.tick env.step).1
                let params : OrderParams :=
                  { symbol := env.symbol
                    side := if target_side = some "long" then "SELL" else "BUY"
                    type := "FUTURE_ORDER_TYPE_TRAILING_STOP_MARKET"
                    quantity := some filled_qty, stopPrice := act
                    callbackRate := env.advice.position.trail_callback_pct
                    reduceOnly := true, workingType := some "MARK_PRICE"
                    positionSide := if env.hedge then posSideMap ((target_side).getD "") else none }
                let (respA, exC) := exB.place env.dryRun params
                match respA with
                | .ok oid => exC.registerId oid
                | _ => exC
              else exB
            else ex3
          exFinal

/-- `run_once`: the trading cycle. -/
def runOnce (env : CycleEnv) : CycleTrace :=
  if !env.hasCache then { status := .skipped "ws_cache_missing" }
  else if env.cacheMark.isNone ∨ env.cacheKlineClose.isNone ∨ env.lastMarkTs ≤ 0 then
    { status := .skipped "ws_priming" }
  else if ¬(env.advice.decision = some "long" ∨ env.advice.decision = some "short" ∨
      env.advice.decision = some "flat") then
    { status := .invalid "invalid_decision" }
  else
    let decision := (env.advice.decision).getD ""
    let target_side : Option String :=
      if decision = "long" then some "long"
      else if decision = "short" then some "short" else none
    if gateLowConfidence env then { status := .skipped "low_confidence" }
    else
      let qty0 := rawQty env
      let (entry_price, qty) :=
        round_price_qty env.advice.position.entry_price qty0 env.tick env.step
      if target_side.isSome ∧ qty ≤ 0 ∧ decision ≠ "flat" then
        { status := .invalid "zero_quantity" }
      else
        let ex0 : Exec := { resps := env.responses, fills := env.fills }
        if decision = "flat" then
          let exF := (env.positions.foldl (flatCloseStep env) ex0).cleanup
          { status := .flat, orders := exF.orders, registered := exF.registered
            waited := exF.waited, cleanups := exF.cleanups }
        else
          let exFinal := longBranchExec env target_side entry_price qty ex0
          { status := .completed, orders := exFinal.orders
            registered := exFinal.registered, waited := exFinal.waited
            cleanups := exFinal.cleanups }

/-- `PROTECT_TYPES` from `cancel_stale_protection_orders`: the order types
the protective-order cleanup is willing to cancel. -/
def PROTECT_TYPES : List String :=
  ["STOP", "TAKE_PROFIT", "STOP_MARKET", "TAKE_PROFIT_MARKET",
   "TRAILING_STOP_MARKET", "LIMIT"]

/-! ### Concrete cycle fixtures used by the theorems below -/

/-- A primed cycle whose advisor answers flat with confidence 0.3. -/
def gatedFlatEnv : CycleEnv :=
  { cacheMark := some 3000, cacheKlineClose := some 3000, lastMarkTs := 1
    advice := { decision := some "flat", confidence := some (3/10) } }

/-- A primed hedge-mode flat cycle with one short position on the symbol,
one position on another symbol and one zero-quantity position. -/
def flatCycleEnv : CycleEnv :=
  { cacheMark := some 3000, cacheKlineClose := some 3000, lastMarkTs := 1
    dryRun := false, hedge := true
    advice := { decision := some "flat" }
    positions := [{ symbol := "ETHUSDT", side := "short", qty := 1/5 },
                  { symbol := "BTCUSDT", side := "long", qty := 3 },
                  { symbol := "ETHUSDT", side := "long", qty := 0 }]
    responses := [.ok 31]
    fills := [some { status := "FILLED", executed_qty := some (1/5) }] }

/-- A primed long cycle with confidence 0.3 and a market entry of 0.1
contracts. -/
def lowConfEnv : CycleEnv :=
  { cacheMark := some 3000, cacheKlineClose := some 3000, lastMarkTs := 1
    advice := { decision := some "long", confidence := some (3/10)
                position := { contracts := some (1/10) } } }

/-- A primed non-dry-run long cycle whose entry fill reports terminal
status `s` with executed quantity zero; the advice carries a stop-loss. -/
def entryFallbackEnv (q slp : ℚ) (oid : Int) (s : String) : CycleEnv :=
  { dryRun := false
    cacheMark := some 3000, cacheKlineClose := some 3000, lastMarkTs := 1
    advice := { decision := some "long"
                position := { contracts := some q, sl_price := some slp } }
    responses := [.ok oid]
    fills := [some { status := s, executed_qty := some 0 }] }

/-- A primed non-dry-run long cycle whose advice carries a trailing stop
(activation 3100, callback 1 percent); the entry fills completely. -/
def trailEnv : CycleEnv :=
  { dryRun := false
    cacheMark := some 3000, cacheKlineClose := some 3000, lastMarkTs := 1
    advice := { decision := some "long"
                position := { contracts := some (1/10)
                              trail_activate_price := some 3100
                              trail_callback_pct := some 1 } }
    responses := [.ok 11, .ok 12]
    fills := [some { status := "FILLED", executed_qty := some (1/10) }] }

/-! ## Theorems -/

theorem lookupOrder_append_self (st : OrderStore) (order_id : Int)
    (t : OrderTracker) (h : lookupOrder st order_id = none) :
    lookupOrder { orders := st.orders ++ [(order_id, t)] } order_id = some t := by
  unfold lookupOrder at *
  have hf : st.orders.find? (fun e => e.1 = order_id) = none := by
    cases hh : st.orders.find? (fun e => e.1 = order_id) with
    | none => rfl
    | some v => rw [hh] at h; simp at h
  rw [List.find?_append, hf]
  simp

theorem register_fresh (st : OrderStore) (sym : String) (order_id : Int)
    (side ps oty : Option String) (ro : Option Bool) (pr sp q : Option ℚ)
    (hfresh : lookupOrder st order_id = none) :
    st.register sym order_id side ps oty ro pr sp q =
      ({ symbol := some sym, order_id := order_id, side := side
         position_side := ps, order_type := oty, reduce_only := ro
         price := pr, stop_price := sp, quantity := q },
       { orders := st.orders ++
          [(order_id,
            { symbol := some sym, order_id := order_id, side := side
              position_side := ps, order_type := oty, reduce_only := ro
              price := pr, stop_price := sp, quantity := q })] }) := by
  unfold OrderStore.register
  rw [hfresh]

theorem register_existing (st : OrderStore) (sym : String) (order_id : Int)
    (side ps oty : Option String) (ro : Option Bool) (pr sp q : Option ℚ)
    (t : OrderTracker) (hfound : lookupOrder st order_id = some t) :
    st.register sym order_id side ps oty ro pr sp q = (t, st) := by
  unfold OrderStore.register
  rw [hfound]

/-- Claim C9: registering an order id that is already present returns the
tracker created by the first call, leaves the store unchanged, and the
store holds exactly one entry for that id, carrying the fields of the
first call. -/
theorem register_idempotent (st : OrderStore) (sym1 sym2 : String)
    (order_id : Int) (side1 ps1 oty1 : Option String) (ro1 : Option Bool)
    (pr1 sp1 q1 : Option ℚ) (side2 ps2 oty2 : Option String)
    (ro2 : Option Bool) (pr2 sp2 q2 : Option ℚ)
    (hfresh : lookupOrder st order_id = none) :
    (((st.register sym1 order_id side1 ps1 oty1 ro1 pr1 sp1 q1).2.register
        sym2 order_id side2 ps2 oty2 ro2 pr2 sp2 q2).1 =
      (st.register sym1 order_id side1 ps1 oty1 ro1 pr1 sp1 q1).1) ∧
    (((st.register sym1 order_id side1 ps1 oty1 ro1 pr1 sp1 q1).2.register
        sym2 order_id side2 ps2 oty2 ro2 pr2 sp2 q2).2 =
      (st.register sym1 order_id side1 ps1 oty1 ro1 pr1 sp1 q1).2) ∧
    ((((st.register sym1 order_id side1 ps1 oty1 ro1 pr1 sp1 q1).2.register
        sym2 order_id side2 ps2 oty2 ro2 pr2 sp2 q2).2.orders.filter
          (fun e => e.1 = order_id)).length = 1) ∧
    ((st.register sym1 order_id side1 ps1 oty1 ro1 pr1 sp1 q1).1 =
      { symbol := some sym1, order_id := order_id, side := side1
        position_side := ps1, order_type := oty1, reduce_only := ro1
        price := pr1, stop_price := sp1, quantity := q1 }) := by
  have h1 := register_fresh st sym1 order_id side1 ps1 oty1 ro1 pr1 sp1 q1 hfresh
  have hl : lookupOrder (st.register sym1 order_id side1 ps1 oty1 ro1 pr1 sp1 q1).2
      order_id = some (st.register sym1 order_id side1 ps1 oty1 ro1 pr1 sp1 q1).1 := by
    rw [h1]
    exact lookupOrder_append_self st order_id _ hfresh
  have h2 := register_existing
    (st.register sym1 order_id side1 ps1 oty1 ro1 pr1 sp1 q1).2 sym2 order_id
    side2 ps2 oty2 ro2 pr2 sp2 q2 _ hl
  have hfilter : st.orders.filter (fun e => e.1 = order_id) = [] := by
    refine List.filter_eq_nil_iff.mpr ?_
    intro e he
    by_contra hc
    simp only [decide_eq_true_eq] at hc
    have : st.orders.find? (fun x => x.1 = order_id) = none := by
      cases hh : st.orders.find? (fun x => x.1 = order_id) with
      | none => rfl
      | some v => unfold lookupOrder at hfresh; rw [hh] at hfresh; simp at hfresh
    have := List.find?_eq_none.mp this e he
    simp [hc] at this
  refine ⟨by rw [h2], by rw [h2], ?_, by rw [h1]⟩
  rw [h2, h1]
  simp only [List.filter_append, hfilter, List.nil_append]
  simp

/-- Claim C9 witness: two registrations of order id 1 on the empty store,
the second with different arguments. -/
theorem register_idempotent_witness :
    lookupOrder ({} : OrderStore) 1 = none ∧
    ((((OrderStore.register {} "ETHUSDT" 1 (some "BUY") none none none none
        none none).2.register "OTHER" 1 (some "SELL") (some "LONG") none none
        none none none).1 =
      (OrderStore.register {} "ETHUSDT" 1 (some "BUY") none none none none
        none none).1) ∧
     (((OrderStore.register {} "ETHUSDT" 1 (some "BUY") none none none none
        none none).2.register "OTHER" 1 (some "SELL") (some "LONG") none none
        none none none).2 =
      (OrderStore.register {} "ETHUSDT" 1 (some "BUY") none none none none
        none none).2) ∧
     ((((OrderStore.register {} "ETHUSDT" 1 (some "BUY") none none none none
        none none).2.register "OTHER" 1 (some "SELL") (some "LONG") none none
        none none none).2.orders.filter (fun e => e.1 = 1)).length = 1) ∧
     ((OrderStore.register {} "ETHUSDT" 1 (some "BUY") none none none none
        none none).1 =
      { symbol := some "ETHUSDT", order_id := 1, side := some "BUY"
        position_side := none, order_type := none, reduce_only := none
        price := none, stop_price := none, quantity := none })) :=
  ⟨rfl, register_idempotent {} "ETHUSDT" "OTHER" 1 (some "BUY") none none none
    none none none (some "SELL") (some "LONG") none none none none none rfl⟩

theorem mergeOFields_executed_qty (ot : OrderTracker) (o : OrderEventO)
    (E T : Option Int) :
    (mergeOFields ot o E T).executed_qty = o.z.getD ot.executed_qty := by
  simp only [mergeOFields, apply_ite OrderTracker.executed_qty, ite_self]

/-- Claim C8 (amended): a trade-update merge overwrites executed_qty with
the event z field when present and keeps it unchanged when absent, so the
executed quantity never decreases as long as each applied event carries a
cumulative quantity at least the current value; an event with a smaller z
does lower it. -/
theorem executed_qty_monotone (ot : OrderTracker) (o : OrderEventO)
    (E T : Option Int) (h : ∀ v, o.z = some v → ot.executed_qty ≤ v) :
    ot.executed_qty ≤ (mergeOFields ot o E T).executed_qty := by
  rw [mergeOFields_executed_qty]
  cases hz : o.z with
  | none => simp
  | some v => simpa using h v hz

/-- Claim C8 witness: an event with z = 7 applied to a fresh tracker. -/
theorem executed_qty_monotone_witness :
    (∀ v, (({ i := some 7, X := some "PARTIALLY_FILLED", z := some 7 } :
        OrderEventO)).z = some v →
      ({ symbol := some "ETHUSDT", order_id := 7 } : OrderTracker).executed_qty ≤ v) ∧
    ({ symbol := some "ETHUSDT", order_id := 7 } : OrderTracker).executed_qty ≤
      (mergeOFields { symbol := some "ETHUSDT", order_id := 7 }
        { i := some 7, X := some "PARTIALLY_FILLED", z := some 7 }
        none none).executed_qty :=
  ⟨fun v hv => by simp only [Option.some.injEq] at hv; rw [← hv]; norm_num,
   executed_qty_monotone _ _ none none
     (fun v hv => by simp only [Option.some.injEq] at hv; rw [← hv]; norm_num)⟩

/-- Claim C8 counterexample: a later ORDER_TRADE_UPDATE carrying a smaller
cumulative fill quantity lowers the executed quantity of tracker 7 from
5 to 1. -/
theorem executed_qty_can_decrease :
    (let st0 : OrderStore :=
      (OrderStore.register {} "ETHUSDT" 7 (some "BUY") none none none none
        none none).2
     let ev1 : UserEventPayload :=
      { e := some "ORDER_TRADE_UPDATE"
        o := { i := some 7, X := some "PARTIALLY_FILLED", z := some 5 } }
     let ev2 : UserEventPayload :=
      { e := some "ORDER_TRADE_UPDATE"
        o := { i := some 7, X := some "PARTIALLY_FILLED", z := some 1 } }
     let st1 := st0.update_from_user_event ev1
     let st2 := st1.update_from_user_event ev2
     (lookupOrder st1 7).map (·.executed_qty) = some 5 ∧
       (lookupOrder st2 7).map (·.executed_qty) = some 1) ∧
    (1 : ℚ) < 5 := by
  refine ⟨⟨?_, ?_⟩, by norm_num⟩ <;>
    simp [OrderStore.register, OrderStore.update_from_user_event, lookupOrder,
      storeSet, mergeOFields, pyUpper, pyStrOr, strTruthy, pyIntOr,
      OrderTracker.is_terminal, TERMINAL_STATUSES, List.find?]

/-- Claim C1 (evaluation of the defect): when the tracker for the order id
is present, the wait call raises AttributeError instead of blocking and
returning a snapshot or None, because the dataclass defines a method named
wait while order_store.py line 196 invokes wait_until_terminal on the
tracker. -/
theorem wait_until_terminal_raises :
    (let st : OrderStore :=
      (OrderStore.register {} "ETHUSDT" 1 (some "BUY") none none none none
        none none).2
     st.wait_until_terminal 1 none true =
      .raises (.attributeError
        "OrderTracker object has no attribute wait_until_terminal")) ∧
    "wait_until_terminal" ∉ OrderTracker.methodNames ∧
    "wait" ∈ OrderTracker.methodNames := by
  refine ⟨?_, by decide, by decide⟩
  simp [OrderStore.register, OrderStore.wait_until_terminal, lookupOrder,
    OrderTracker.methodNames, List.find?]

/-- Claim C2 counterexample: after a mark update at event time 2000 ms
followed by an out-of-order update at event time 1000 ms, the cache holds
the price and timestamp of the older event (99 at 1 s), not the value
carried by the update at the later event time (100). -/
theorem set_mark_keeps_older_event :
    (((({ symbol := "ETHUSDT" } : WsCache).set_mark 100 2000).set_mark
        99 1000).mark_price = some 99) ∧
    (((({ symbol := "ETHUSDT" } : WsCache).set_mark 100 2000).set_mark
        99 1000).mark_price ≠ some 100) ∧
    (((({ symbol := "ETHUSDT" } : WsCache).set_mark 100 2000).set_mark
        99 1000).last_mark_ts = 1) := by
  refine ⟨rfl, by simp [WsCache.set_mark], ?_⟩
  simp only [WsCache.set_mark]
  norm_num

/-- Claim C2 (amended): the mark stream cache is last-writer-wins: every
update overwrites the cached price and timestamp unconditionally, with no
event-time comparison, so after out-of-order delivery the cache retains
the value of the update delivered last, regardless of event times. -/
theorem set_mark_last_writer_wins (c : WsCache) (p1 p2 : ℚ) (t1 t2 : Int) :
    ((c.set_mark p1 t1).set_mark p2 t2).mark_price = some p2 ∧
    ((c.set_mark p1 t1).set_mark p2 t2).last_mark_ts = (t2 : ℚ) / 1000 :=
  ⟨rfl, rfl⟩

/-! ### Volatility detector -/

theorem lastN_of_le (n : Nat) (xs : List α) (h : xs.length ≤ n) : lastN n xs = xs := by
  unfold lastN
  rw [Nat.sub_eq_zero_of_le h, List.drop_zero]

theorem dropWhile_append_last (p : α → Bool) (xs : List α) (y : α)
    (hy : p y = false) :
    (xs ++ [y]).dropWhile p = xs.dropWhile p ++ [y] := by
  induction xs with
  | nil => simp [List.dropWhile, hy]
  | cons a as ih => by_cases h : p a <;> simp [List.dropWhile_cons, h, ih]

/-- Claim C6: on a mark-price update the detector first drops entries older
than the window, then fires iff at least two samples remain in the window,
the first in-window price is nonzero, and the absolute percent move from
it reaches the threshold; with fewer than two in-window samples it never
fires.  The resulting history is exactly the pruned window plus the new
sample. -/
theorem on_mark_spec (d : VolatilityDetector) (E : Option Int) (p : ℚ)
    (now_ms : Int) (hw : 0 ≤ d.mp_window_sec) (hlen : d.mp_hist.length < 4096) :
    ((d.on_mark E (some p) now_ms).2.mp_hist =
      d.mp_hist.dropWhile (fun e => e.1 < tsOf E now_ms - d.mp_window_sec) ++
        [(tsOf E now_ms, p)]) ∧
    ((d.on_mark E (some p) now_ms).1 =
      markRuleClaim d.mp_hist d.mp_window_sec d.mp_delta_pct (tsOf E now_ms) p) ∧
    ((d.mp_hist.dropWhile (fun e => e.1 < tsOf E now_ms - d.mp_window_sec) ++
        [(tsOf E now_ms, p)]).length < 2 →
      (d.on_mark E (some p) now_ms).1 = false) := by
  have hy : (fun e : ℚ × ℚ => decide (e.1 < tsOf E now_ms - d.mp_window_sec))
      (tsOf E now_ms, p) = false := by
    simp only [decide_eq_false_iff_not, not_lt]
    linarith
  have happ : dequeAppend 4096 d.mp_hist (tsOf E now_ms, p) =
      d.mp_hist ++ [(tsOf E now_ms, p)] := by
    apply lastN_of_le
    simp only [List.length_append, List.length_singleton]
    omega
  have hdrop : (d.mp_hist ++ [(tsOf E now_ms, p)]).dropWhile
        (fun e => decide (e.1 < tsOf E now_ms - d.mp_window_sec)) =
      d.mp_hist.dropWhile (fun e => decide (e.1 < tsOf E now_ms - d.mp_window_sec)) ++
        [(tsOf E now_ms, p)] :=
    dropWhile_append_last _ _ _ hy
  have hmain : d.on_mark E (some p) now_ms =
      (let hist2 := d.mp_hist.dropWhile
          (fun e => decide (e.1 < tsOf E now_ms - d.mp_window_sec)) ++ [(tsOf E now_ms, p)]
       let d1 := { d with mp_hist := hist2 }
       if hist2.length < 2 then (false, d1)
       else
         match hist2.head? with
         | none => (false, d1)
         | some e0 =>
             if e0.2 = 0 then (false, d1)
             else (decide (|p / e0.2 - 1| * 100 ≥ d.mp_delta_pct), d1)) := by
    unfold VolatilityDetector.on_mark
    dsimp only
    rw [happ, hdrop]
  rw [hmain]
  simp only [markRuleClaim]
  rcases hdw : d.mp_hist.dropWhile
      (fun e => decide (e.1 < tsOf E now_ms - d.mp_window_sec)) with _ | ⟨a, rest⟩ <;>
    rw [hdw]
  · exact ⟨by simp, by simp, fun _ => by simp⟩
  · have haux2 : ¬(rest.length + 1 + 1 < 2) := by omega
    have hlen2 : 2 ≤ rest.length + 2 := by omega
    by_cases ha : a.2 = 0
    · refine ⟨by simp [haux2]; split <;> rfl, by simp [ha, haux2], ?_⟩
      intro hcon
      refine absurd hcon ?_
      simp only [List.length_append, List.length_cons, List.length_singleton]
      omega
    · refine ⟨by simp [haux2]; split <;> rfl, by simp [ha, haux2, hlen2], ?_⟩
      intro hcon
      refine absurd hcon ?_
      simp only [List.length_append, List.length_cons, List.length_singleton]
      omega

/-- Claim C6 witness: a first sample at event time 1000 ms on the default
detector (its window stays below two samples, so it does not fire). -/
theorem on_mark_spec_witness :
    (((({} : VolatilityDetector)).on_mark (some 1000) (some 100) 0).2.mp_hist =
      ({} : VolatilityDetector).mp_hist.dropWhile
          (fun e : ℚ × ℚ => e.1 < tsOf (some 1000) 0 - ({} : VolatilityDetector).mp_window_sec) ++
        [(tsOf (some 1000) 0, 100)]) ∧
    (((({} : VolatilityDetector)).on_mark (some 1000) (some 100) 0).1 =
      markRuleClaim ({} : VolatilityDetector).mp_hist
        ({} : VolatilityDetector).mp_window_sec
        ({} : VolatilityDetector).mp_delta_pct (tsOf (some 1000) 0) 100) ∧
    ((({} : VolatilityDetector).mp_hist.dropWhile
          (fun e : ℚ × ℚ => e.1 < tsOf (some 1000) 0 - ({} : VolatilityDetector).mp_window_sec) ++
        [(tsOf (some 1000) 0, 100)]).length < 2 →
      ((({} : VolatilityDetector)).on_mark (some 1000) (some 100) 0).1 = false) :=
  on_mark_spec {} (some 1000) 100 0
    (by show (0 : ℚ) ≤ 10; norm_num) (by show (0 : Nat) < 4096; norm_num)

/-- Claim C5 (amended): the volume sub-rule of the candle detector compares
the candle volume against the mean of a rolling deque holding the last
max 5 vol_lookback volume values, appends the volume only after the
comparison, and fires iff a prior mean exists, is positive, and
vol ≥ vol_mult times the mean.  The first closed candle and any candle
with non-positive prior mean never fire the volume sub-rule, and the
overall verdict is the disjunction of the range and volume triggers. -/
theorem on_kline_volume_rule (d : VolatilityDetector) (k : KlineK) (vol : ℚ)
    (hx : k.x = true) (hc : ratTruthy k.c = true) (hh : ratTruthy k.h = true)
    (hl : ratTruthy k.l = true)
    (hv : (if d.use_quote_volume && k.q.isSome then k.q else k.v) = some vol) :
    ((d.on_kline k).2.2.trig_vol =
      (!d.vol_hist.isEmpty &&
        decide (d.vol_hist.sum / (d.vol_hist.length : ℚ) > 0) &&
        decide (vol ≥ d.vol_mult * (d.vol_hist.sum / (d.vol_hist.length : ℚ))))) ∧
    ((d.on_kline k).2.1.vol_hist = dequeAppend (max 5 d.vol_lookback) d.vol_hist vol) ∧
    (d.vol_hist = [] → (d.on_kline k).2.2.trig_vol = false) ∧
    (d.vol_hist.sum / (d.vol_hist.length : ℚ) ≤ 0 → (d.on_kline k).2.2.trig_vol = false) ∧
    ((d.on_kline k).1 = ((d.on_kline k).2.2.trig_range || (d.on_kline k).2.2.trig_vol)) ∧
    ((d.on_kline k).2.2.trig_range =
      decide (((k.h.getD 0 - k.l.getD 0) / k.c.getD 0) * 100 ≥ d.kline_range_pct)) := by
  have hmain : d.on_kline k =
      (let h := k.h.getD 0
       let l := k.l.getD 0
       let c := k.c.getD 0
       let range_pct := ((h - l) / c) * 100
       let trig_range := decide (range_pct ≥ d.kline_range_pct)
       let avg? : Option ℚ :=
         if d.vol_hist.isEmpty then none
         else some (d.vol_hist.sum / (d.vol_hist.length : ℚ))
       let trig_vol :=
         match avg? with
         | some avg => decide (avg > 0) && decide (vol ≥ d.vol_mult * avg)
         | none => false
       let d1 := { d with vol_hist := dequeAppend (max 5 d.vol_lookback) d.vol_hist vol }
       (trig_range || trig_vol, d1,
         { trig_range := trig_range, trig_vol := trig_vol
           vol := some vol, avg := avg? })) := by
    unfold VolatilityDetector.on_kline
    rw [hx, hc, hh, hl, hv]
    simp
  rw [hmain]
  by_cases he : d.vol_hist.isEmpty
  · have he2 : d.vol_hist = [] := List.isEmpty_iff.mp he
    refine ⟨by simp [he], rfl, fun _ => by simp [he], fun _ => by simp [he], rfl, rfl⟩
  · refine ⟨by simp [he], rfl, fun h0 => absurd (List.isEmpty_iff.mpr h0) he, ?_, rfl, rfl⟩
    intro hle
    have : ¬(d.vol_hist.sum / (d.vol_hist.length : ℚ) > 0) := not_lt.mpr hle
    simp [he, decide_eq_false this]

/-- Claim C5 witness: a closed candle with volume 2 on a fresh default
detector (empty volume history, so the volume sub-rule does not fire). -/
theorem on_kline_volume_rule_witness :
    ((({} : VolatilityDetector).on_kline
        { x := true, h := some 1, l := some 1, c := some 1, q := some 2 }).2.2.trig_vol =
      (!({} : VolatilityDetector).vol_hist.isEmpty &&
        decide (({} : VolatilityDetector).vol_hist.sum /
          (({} : VolatilityDetector).vol_hist.length : ℚ) > 0) &&
        decide ((2 : ℚ) ≥ ({} : VolatilityDetector).vol_mult *
          (({} : VolatilityDetector).vol_hist.sum /
            (({} : VolatilityDetector).vol_hist.length : ℚ))))) ∧
    ((({} : VolatilityDetector).on_kline
        { x := true, h := some 1, l := some 1, c := some 1, q := some 2 }).2.1.vol_hist =
      dequeAppend (max 5 ({} : VolatilityDetector).vol_lookback)
        ({} : VolatilityDetector).vol_hist 2) ∧
    (({} : VolatilityDetector).vol_hist = [] →
      ((({} : VolatilityDetector).on_kline
        { x := true, h := some 1, l := some 1, c := some 1, q := some 2 }).2.2.trig_vol = false)) ∧
    (({} : VolatilityDetector).vol_hist.sum /
        (({} : VolatilityDetector).vol_hist.length : ℚ) ≤ 0 →
      ((({} : VolatilityDetector).on_kline
        { x := true, h := some 1, l := some 1, c := some 1, q := some 2 }).2.2.trig_vol = false)) ∧
    ((({} : VolatilityDetector).on_kline
        { x := true, h := some 1, l := some 1, c := some 1, q := some 2 }).1 =
      ((({} : VolatilityDetector).on_kline
        { x := true, h := some 1, l := some 1, c := some 1, q := some 2 }).2.2.trig_range ||
       (({} : VolatilityDetector).on_kline
        { x := true, h := some 1, l := some 1, c := some 1, q := some 2 }).2.2.trig_vol)) ∧
    ((({} : VolatilityDetector).on_kline
        { x := true, h := some 1, l := some 1, c := some 1, q := some 2 }).2.2.trig_range =
      decide ((((some 1 : Option ℚ).getD 0 - (some 1 : Option ℚ).getD 0) /
        (some 1 : Option ℚ).getD 0) * 100 ≥ ({} : VolatilityDetector).kline_range_pct)) :=
  on_kline_volume_rule {} { x := true, h := some 1, l := some 1, c := some 1, q := some 2 } 2
    rfl (by decide) (by decide) (by decide) rfl

/-- Claim C5 counterexample: with vol_lookback = 1 the rolling deque still
holds up to max 5 vol_lookback = 5 entries, so on the volume sequence
1, 9, 16 the third candle fires the volume sub-rule (mean of [1, 9] is 5
and 16 ≥ 3 · 5) although the mean of the last vol_lookback = 1 values is
9 and 16 < 3 · 9, i.e. the sub-rule as the claim states it does not fire. -/
theorem on_kline_volume_window_counterexample :
    (let d0 : VolatilityDetector := { vol_lookback := 1, vol_mult := 3 }
     let mk : ℚ → KlineK := fun v =>
       { x := true, h := some 100, l := some 100, c := some 100, q := some v, v := some v }
     let d1 := (d0.on_kline (mk 1)).2.1
     let d2 := (d1.on_kline (mk 9)).2.1
     (d2.on_kline (mk 16)).1 = true ∧
       (d2.on_kline (mk 16)).2.2.trig_vol = true ∧
       (d2.on_kline (mk 16)).2.2.trig_range = false ∧
       d2.vol_hist = [1, 9]) ∧
    volRuleClaim 1 3 [1, 9] 16 = false := by
  constructor
  · norm_num [VolatilityDetector.on_kline, dequeAppend, lastN, ratTruthy, List.isEmpty]
  · norm_num [volRuleClaim, lastN, List.isEmpty]

/-! ### Trading cycle -/

theorem place_snd_fields (ex : Exec) (dry : Bool) (p : OrderParams) :
    (ex.place dry p).2.orders = ex.orders ++ [p] ∧
    (ex.place dry p).2.cleanups = ex.cleanups ∧
    (ex.place dry p).2.registered = ex.registered ∧
    (ex.place dry p).2.waited = ex.waited := by
  unfold Exec.place
  by_cases h : dry
  · simp [h]
  · simp only [h]
    cases ex.resps <;> simp

theorem waitFill_orders (ex : Exec) (oid : Int) :
    (ex.waitFill oid).2.orders = ex.orders := by
  unfold Exec.waitFill; cases ex.fills <;> rfl

theorem waitFill_cleanups (ex : Exec) (oid : Int) :
    (ex.waitFill oid).2.cleanups = ex.cleanups := by
  unfold Exec.waitFill; cases ex.fills <;> rfl

theorem waitFill_waited (ex : Exec) (oid : Int) :
    (ex.waitFill oid).2.waited = ex.waited ++ [oid] := by
  unfold Exec.waitFill; cases ex.fills <;> rfl

theorem registerId_orders (ex : Exec) (oid : Int) :
    (ex.registerId oid).orders = ex.orders := rfl

theorem registerId_cleanups (ex : Exec) (oid : Int) :
    (ex.registerId oid).cleanups = ex.cleanups := rfl

theorem flatCloseStep_fields (env : CycleEnv) (ex : Exec) (p : PyPosition) :
    ((flatCloseStep env ex p).orders =
      ex.orders ++ (if p.symbol = env.symbol ∧ 0 < p.qty
        then [closeOrderFor env p] else [])) ∧
    (flatCloseStep env ex p).cleanups = ex.cleanups := by
  unfold flatCloseStep
  by_cases hskip : p.symbol ≠ env.symbol ∨ p.qty ≤ 0
  · rw [if_pos hskip]
    have hnc : ¬(p.symbol = env.symbol ∧ 0 < p.qty) := by
      rcases hskip with h | h
      · exact fun hc => h hc.1
      · exact fun hc => absurd hc.2 (not_lt.mpr h)
    simp [hnc]
  · rw [if_neg hskip]
    push_neg at hskip
    have hcond : p.symbol = env.symbol ∧ 0 < p.qty := ⟨hskip.1, hskip.2⟩
    obtain ⟨hpo, hpc, hpr, hpw⟩ := place_snd_fields ex env.dryRun (closeOrderFor env p)
    rcases hr : (ex.place env.dryRun (closeOrderFor env p)).1 with _ | oid | msg <;>
      simp only [hr] <;>
      simp [hcond, waitFill_orders, waitFill_cleanups, registerId_orders,
        registerId_cleanups, hpo, hpc]

theorem flatClose_foldl (env : CycleEnv) (ps : List PyPosition) (ex : Exec) :
    ((ps.foldl (flatCloseStep env) ex).orders =
      ex.orders ++ (ps.filter (fun p => decide (p.symbol = env.symbol) &&
        decide (0 < p.qty))).map (closeOrderFor env)) ∧
    (ps.foldl (flatCloseStep env) ex).cleanups = ex.cleanups := by
  induction ps generalizing ex with
  | nil => simp
  | cons p ps ih =>
      simp only [List.foldl_cons, List.filter_cons]
      obtain ⟨ho, hc⟩ := flatCloseStep_fields env ex p
      obtain ⟨iho, ihc⟩ := ih (flatCloseStep env ex p)
      refine ⟨?_, by rw [ihc, hc]⟩
      rw [iho, ho]
      by_cases hcond : p.symbol = env.symbol ∧ 0 < p.qty
      · simp [hcond.1, hcond.2, List.append_assoc]
      · have h1 : ¬(decide (p.symbol = env.symbol) && decide (0 < p.qty)) = true := by
          simp only [Bool.and_eq_true, decide_eq_true_eq]
          exact fun hc2 => hcond hc2
        simp [hcond, h1]

theorem cleanup_fields (ex : Exec) :
    (ex.cleanup).orders = ex.orders ∧ (ex.cleanup).cleanups = ex.cleanups + 1 ∧
    (ex.cleanup).registered = ex.registered ∧ (ex.cleanup).waited = ex.waited :=
  ⟨rfl, rfl, rfl, rfl⟩

/-- Claim C4 (amended): in a primed cycle whose advisor decision is flat
and whose confidence gate does not short-circuit, run_once emits no
entry, stop-loss, take-profit or trailing-stop order: the orders placed
are exactly the reduce-only market orders in the opposite direction for
each open position on the symbol with positive quantity (stamped with the
position side in hedge mode), protective-order cleanup runs exactly once
afterwards, and the cycle returns with status flat.  A low-confidence
flat cycle is instead gated before the flat handler (see the
counterexample). -/
theorem flat_decision (env : CycleEnv)
    (hcache : env.hasCache = true)
    (hmark : env.cacheMark.isSome = true)
    (hkline : env.cacheKlineClose.isSome = true)
    (hts : 0 < env.lastMarkTs)
    (hdec : env.advice.decision = some "flat")
    (hgate : gateLowConfidence env = false)
    (_hsides : ∀ p ∈ env.positions, p.side = "long" ∨ p.side = "short") :
    (runOnce env).status = .flat ∧
    (runOnce env).cleanups = 1 ∧
    (runOnce env).orders =
      (env.positions.filter (fun p => decide (p.symbol = env.symbol) &&
        decide (0 < p.qty))).map (closeOrderFor env) ∧
    (∀ o ∈ (runOnce env).orders, o.reduceOnly = true ∧ o.type = "MARKET") := by
  have hprime : ¬(env.cacheMark.isNone ∨ env.cacheKlineClose.isNone ∨ env.lastMarkTs ≤ 0) := by
    push_neg
    refine ⟨?_, ?_, hts⟩
    · simp [Option.isNone_iff_eq_none]
      intro heq; rw [heq] at hmark; simp at hmark
    · simp [Option.isNone_iff_eq_none]
      intro heq; rw [heq] at hkline; simp at hkline
  have hvalid : env.advice.decision = some "long" ∨ env.advice.decision = some "short" ∨
      env.advice.decision = some "flat" := Or.inr (Or.inr hdec)
  have hrun : runOnce env =
      (let ex0 : Exec := { resps := env.responses, fills := env.fills }
       let exF := (env.positions.foldl (flatCloseStep env) ex0).cleanup
       { status := .flat, orders := exF.orders, registered := exF.registered
         waited := exF.waited, cleanups := exF.cleanups }) := by
    unfold runOnce
    rw [hcache]
    rw [if_neg (by simp)]
    rw [if_neg hprime]
    rw [if_neg (not_not_intro hvalid)]
    rw [hdec]
    simp only [Option.getD_some]
    rw [if_neg (by simp [hgate])]
    rw [if_neg (by simp)]
    simp
  rw [hrun]
  obtain ⟨hfo, hfc⟩ := flatClose_foldl env env.positions
    { resps := env.responses, fills := env.fills }
  refine ⟨rfl, ?_, ?_, ?_⟩
  · show ((env.positions.foldl (flatCloseStep env) _).cleanup).cleanups = 1
    rw [(cleanup_fields _).2.1, hfc]
  · show ((env.positions.foldl (flatCloseStep env) _).cleanup).orders = _
    rw [(cleanup_fields _).1, hfo]
    simp
  · intro o ho
    dsimp only at ho
    rw [(cleanup_fields _).1, hfo] at ho
    dsimp only at ho
    simp only [List.nil_append] at ho
    obtain ⟨p, hp, hpe⟩ := List.mem_map.mp ho
    rw [← hpe]
    exact ⟨rfl, rfl⟩



/-- Claim C3: in a primed cycle with a valid advisor decision, a
confidence strictly between 0 and the clamped AI_CONF_THRESHOLD makes
run_once emit no orders and end with status skipped(low_confidence),
while a confidence of exactly 0 or an absent confidence never gates the
cycle. -/
theorem confidence_gate (env : CycleEnv)
    (hcache : env.hasCache = true)
    (hmark : env.cacheMark.isSome = true)
    (hkline : env.cacheKlineClose.isSome = true)
    (hts : 0 < env.lastMarkTs)
    (hdec : env.advice.decision = some "long" ∨ env.advice.decision = some "short" ∨
      env.advice.decision = some "flat") :
    ((∃ c, env.advice.confidence = some c ∧ 0 < c ∧ c < aiConfThreshold env) →
      runOnce env = { status := .skipped "low_confidence" }) ∧
    ((env.advice.confidence = none ∨ env.advice.confidence = some 0) →
      (runOnce env).status ≠ .skipped "low_confidence") := by
  have hprime : ¬(env.cacheMark.isNone = true ∨ env.cacheKlineClose.isNone = true ∨
      env.lastMarkTs ≤ 0) := by
    push_neg
    refine ⟨?_, ?_, hts⟩
    · simp [Option.isNone_iff_eq_none]
      intro heq; rw [heq] at hmark; simp at hmark
    · simp [Option.isNone_iff_eq_none]
      intro heq; rw [heq] at hkline; simp at hkline
  constructor
  · rintro ⟨c, hc, h1, h2⟩
    have hgate : gateLowConfidence env = true := by
      unfold gateLowConfidence; rw [hc]; simp [h1, h2]
    unfold runOnce
    rw [hcache]
    rw [if_neg (by simp)]
    rw [if_neg hprime]
    rw [if_neg (not_not_intro hdec)]
    rw [if_pos hgate]
  · intro hconf
    have hgate : gateLowConfidence env = false := by
      unfold gateLowConfidence
      rcases hconf with h | h <;> simp [h]
    unfold runOnce
    rw [hcache]
    rw [if_neg (by simp)]
    rw [if_neg hprime]
    rw [if_neg (not_not_intro hdec)]
    rw [if_neg (by simp [hgate])]
    simp only [apply_ite CycleTrace.status]
    (repeat' split) <;> simp_all



theorem flat_decision_gated_counterexample :
    (runOnce gatedFlatEnv = { status := .skipped "low_confidence" }) ∧
    (runOnce gatedFlatEnv).status ≠ .flat ∧
    (runOnce gatedFlatEnv).cleanups = 0 ∧
    (runOnce gatedFlatEnv).orders = [] ∧
    gatedFlatEnv.advice.decision = some "flat" := by
  have h : runOnce gatedFlatEnv = { status := .skipped "low_confidence" } := by
    norm_num [runOnce, gatedFlatEnv, gateLowConfidence, aiConfThreshold, clamp01]
  refine ⟨h, by rw [h]; simp, by rw [h], by rw [h], rfl⟩

/-- Claim C3 witness: a primed long cycle with confidence 0.3. -/
theorem confidence_gate_witness :
    ((∃ c, lowConfEnv.advice.confidence = some c ∧ 0 < c ∧ c < aiConfThreshold lowConfEnv) →
      runOnce lowConfEnv = { status := .skipped "low_confidence" }) ∧
    ((lowConfEnv.advice.confidence = none ∨ lowConfEnv.advice.confidence = some 0) →
      (runOnce lowConfEnv).status ≠ .skipped "low_confidence") :=
  confidence_gate lowConfEnv rfl rfl rfl (by norm_num [lowConfEnv]) (Or.inl rfl)

/-- Claim C4 witness: a primed hedge-mode flat cycle with one positive
short position on the symbol. -/
theorem flat_decision_witness :
    (runOnce flatCycleEnv).status = .flat ∧
    (runOnce flatCycleEnv).cleanups = 1 ∧
    (runOnce flatCycleEnv).orders =
      (flatCycleEnv.positions.filter (fun p => decide (p.symbol = flatCycleEnv.symbol) &&
        decide (0 < p.qty))).map (closeOrderFor flatCycleEnv) ∧
    (∀ o ∈ (runOnce flatCycleEnv).orders, o.reduceOnly = true ∧ o.type = "MARKET") :=
  flat_decision flatCycleEnv rfl rfl rfl (by norm_num [flatCycleEnv]) rfl rfl
    (by
      intro p hp
      simp only [flatCycleEnv, List.mem_cons, List.not_mem_nil, or_false] at hp
      rcases hp with h | h | h <;> subst h
      · exact Or.inr rfl
      · exact Or.inl rfl
      · exact Or.inl rfl)


theorem entry_zero_executed_fallback (q slp : ℚ) (oid : Int) (s : String)
    (hq : 0 < q) (hslp : slp ≠ 0) (hs : s ∈ TERMINAL_STATUSES) :
    runOnce (entryFallbackEnv q slp oid s) =
      { status := .completed
        orders := [{ symbol := "ETHUSDT", side := "BUY", type := "MARKET"
                     quantity := some q },
                   { symbol := "ETHUSDT", side := "SELL", type := "STOP_MARKET"
                     quantity := some q, stopPrice := some slp, reduceOnly := true
                     workingType := some "MARK_PRICE" }]
        registered := [oid], waited := [oid], cleanups := 1 } := by
  have hq0 : q ≠ 0 := ne_of_gt hq
  have hqle : ¬(q ≤ 0) := not_le.mpr hq
  have hup : pyUpper "market" = "MARKET" := by decide
  have hlo : pyLower "mark" = "mark" := by decide
  have h10 : ¬((1 : ℚ) ≤ 0) := by norm_num
  simp [runOnce, longBranchExec, entryFallbackEnv, gateLowConfidence, aiConfThreshold,
    clamp01, rawQty, round_price_qty, snap_qty, entryTypeOf, extract_existing_position,
    Exec.place, Exec.registerId, Exec.waitFill, Exec.cleanup, tpStep,
    ratTruthy, pyRatOr, pyStrOr, strTruthy, posSideMap, hq0, hqle, hs, hup, hlo, hq, hslp, h10]



/-- Claim C10 witness: entry for 0.1 contracts CANCELED with zero
executed quantity; the stop-loss at 2950 is still placed for 0.1. -/
theorem entry_zero_executed_fallback_witness :
    runOnce (entryFallbackEnv (1/10) 2950 21 "CANCELED") =
      { status := .completed
        orders := [{ symbol := "ETHUSDT", side := "BUY", type := "MARKET"
                     quantity := some (1/10) },
                   { symbol := "ETHUSDT", side := "SELL", type := "STOP_MARKET"
                     quantity := some (1/10), stopPrice := some 2950, reduceOnly := true
                     workingType := some "MARK_PRICE" }]
        registered := [21], waited := [21], cleanups := 1 } :=
  entry_zero_executed_fallback (1/10) 2950 21 "CANCELED"
    (by norm_num) (by norm_num) (by decide)

theorem trailing_stop_type_bug :
    (runOnce trailEnv =
      { status := .completed
        orders := [{ symbol := "ETHUSDT", side := "BUY", type := "MARKET"
                     quantity := some (1/10) },
                   { symbol := "ETHUSDT", side := "SELL"
                     type := "FUTURE_ORDER_TYPE_TRAILING_STOP_MARKET"
                     quantity := some (1/10), stopPrice := some 3100
                     reduceOnly := true, workingType := some "MARK_PRICE"
                     callbackRate := some 1 }]
        registered := [11, 12], waited := [11], cleanups := 1 }) ∧
    "FUTURE_ORDER_TYPE_TRAILING_STOP_MARKET" ∉ PROTECT_TYPES ∧
    "TRAILING_STOP_MARKET" ∈ PROTECT_TYPES ∧
    "FUTURE_ORDER_TYPE_TRAILING_STOP_MARKET" ≠ "TRAILING_STOP_MARKET" ∧
    (12 : Int) ∉ (runOnce trailEnv).waited := by
  have hmain : runOnce trailEnv =
      { status := .completed
        orders := [{ symbol := "ETHUSDT", side := "BUY", type := "MARKET"
                     quantity := some (1/10) },
                   { symbol := "ETHUSDT", side := "SELL"
                     type := "FUTURE_ORDER_TYPE_TRAILING_STOP_MARKET"
                     quantity := some (1/10), stopPrice := some 3100
                     reduceOnly := true, workingType := some "MARK_PRICE"
                     callbackRate := some 1 }]
        registered := [11, 12], waited := [11], cleanups := 1 } := by
    have hup : pyUpper "market" = "MARKET" := by decide
    have hsf : ("long" : String) ≠ "flat" := by decide
    have hml : ("MARKET" : String) ≠ "LIMIT" := by decide
    norm_num [runOnce, longBranchExec, trailEnv, gateLowConfidence, aiConfThreshold,
      clamp01, rawQty, round_price_qty, snap_qty, entryTypeOf, extract_existing_position,
      Exec.place, Exec.registerId, Exec.waitFill, Exec.cleanup, tpStep,
      ratTruthy, pyRatOr, pyStrOr, strTruthy, posSideMap, hup, hsf, hml, TERMINAL_STATUSES]
  refine ⟨hmain, by decide, by decide, by decide, ?_⟩
  rw [hmain]
  decide



end AutoFutures
